import Mathlib

/-!
Verification of the Groupthink meeting MCP server core (`src/index.js`).

The JavaScript source is shallowly embedded below.  JavaScript numbers used as
transcript timestamps are modelled as `Int`; the JavaScript values `null` and
`undefined` that can inhabit the transcript cursor are modelled by the
`JSTime` type; truthiness of strings (empty string is falsy) and of optional
numbers (`0` and `undefined` are falsy) is modelled explicitly.  Upstream HTTP
calls are modelled by passing the upstream's response (or its absence: an
abort/timeout) as an explicit argument; each tool handler additionally reports
how many upstream attempts it performed and which backoff sleeps it executed,
so that retry policies become provable statements.
-/

namespace GroupthinkMeeting

/-- JavaScript `s.startsWith(pre)`: `pre` is a prefix of the character
sequence of `s`. -/
def jsStartsWith (s pre : String) : Bool :=
  pre.data.isPrefixOf s.data

/-- The first character of a string, used to discriminate the disjoint
message families the handlers can produce. -/
def firstChar (s : String) : Option Char :=
  s.data.head?

/-! Section: mode selection (`src/index.js` lines 8-25) -/

/-- JavaScript truthiness of an environment variable: present and non-empty. -/
def truthy : Option String → Bool
  | none => false
  | some s => s ≠ ""

/-- JavaScript `a || b` on environment-variable strings: the first operand if
truthy, otherwise the second. -/
def jsOr (a b : Option String) : Option String :=
  if truthy a then a else b

/-- The relevant environment variables read at startup (lines 8-13). -/
structure Env where
  GROUPTHINK_TOKEN : Option String
  RECALL_TOKEN : Option String
  RECALLAI_TOKEN : Option String
  OPENAI_KEY : Option String
  OPENAI_API_KEY : Option String

/-- Line 12: `const RECALL_TOKEN = process.env.RECALL_TOKEN || process.env.RECALLAI_TOKEN`. -/
def effRecallToken (e : Env) : Option String :=
  jsOr e.RECALL_TOKEN e.RECALLAI_TOKEN

/-- Line 13: `const OPENAI_KEY = process.env.OPENAI_KEY || process.env.OPENAI_API_KEY`. -/
def effOpenaiKey (e : Env) : Option String :=
  jsOr e.OPENAI_KEY e.OPENAI_API_KEY

/-- Line 15: `const isHostedMode = !!GROUPTHINK_TOKEN`. -/
def isHostedMode (e : Env) : Bool :=
  truthy e.GROUPTHINK_TOKEN

/-- Line 16: `const isDirectMode = !isHostedMode && RECALL_TOKEN && OPENAI_KEY`. -/
def isDirectMode (e : Env) : Bool :=
  !isHostedMode e && truthy (effRecallToken e) && truthy (effOpenaiKey e)

/-- Outcome of startup mode selection. -/
inductive Startup where
  | hosted
  | direct
  | fatalExit (message : String) (code : Nat)
deriving DecidableEq

/-- The fatal startup message printed before `process.exit(1)` (lines 19-23). -/
def authErrorMessage : String :=
  "Authentication required. Either:\n" ++
    "  - Set GROUPTHINK_TOKEN (recommended)\n" ++
    "  - Or set both RECALL_TOKEN and OPENAI_KEY (self-hosted)\n"

/-- Startup mode selection (lines 15-25): hosted wins, then direct, otherwise a
fatal exit with status 1 before the server is connected. -/
def startup (e : Env) : Startup :=
  if isHostedMode e then .hosted
  else if isDirectMode e then .direct
  else .fatalExit authErrorMessage 1

/-- The process-wide mode once startup succeeded. -/
inductive Mode where
  | hosted
  | direct
deriving DecidableEq

/-! Section: meeting-url normalization (`join_meeting`, lines 110-116) -/

/-- The regular expression test `/^[a-z]{3}-[a-z]{4}-[a-z]{3}$/.test(url)`
(line 112): three hyphen-separated groups of lowercase ASCII letters of sizes
3, 4, 3. -/
def isMeetCode (s : String) : Bool :=
  match s.toList with
  | [a, b, c, '-', d, e, f, g, '-', h, i, j] =>
      [a, b, c, d, e, f, g, h, i, j].all fun ch => decide ('a' ≤ ch) && decide (ch ≤ 'z')
  | _ => false

/-- The url normalization at the top of `join_meeting` (lines 110-116):
a bare Google-Meet code, or any string not starting with `"http"`, is
prefixed with `https://meet.google.com/`; everything else passes through. -/
def normalizeMeetingUrl (meeting_url : String) : String :=
  if isMeetCode meeting_url then "https://meet.google.com/" ++ meeting_url
  else if !jsStartsWith meeting_url "http" then "https://meet.google.com/" ++ meeting_url
  else meeting_url

/-! Section: error normalizer (`humanRecallError` / `formatApiError`, lines 44-55, 97-99).
The `detail` argument stands for the already-extracted
`data?.detail || data?.error || JSON.stringify(data)` string. -/

def humanRecallError (status : Nat) (detail : String) : String :=
  if status = 401 then
    "Authentication failed — check your Recall token or Groupthink login (" ++ detail ++ ")"
  else if status = 403 then
    "Not authorized for this bot (" ++ detail ++ ")"
  else if status = 404 then
    "Bot not found — it may have already left the meeting (" ++ detail ++ ")"
  else if status = 429 then
    "Rate limited — wait a moment and try again"
  else if 500 ≤ status then
    "Recall.ai service error — try again in a few seconds (" ++ toString status ++ ")"
  else
    "Recall API error " ++ toString status ++ ": " ++ detail

def formatApiError (label : String) (status : Nat) (detail : String) : String :=
  label ++ ": " ++ humanRecallError status detail

/-! Section: timeouts (lines 37-38) and the outbound call sites -/

def RECALL_TIMEOUT : Nat := 30000

def TTS_TIMEOUT : Nat := 60000

/-- Classification of an outbound call site by what it asks the upstream to do.
`speechSynthesis` is a call to the text-to-speech platform
(`api.openai.com/v1/audio/speech`); pushing already-synthesized audio to the
bot, or asking the hosted intermediary to speak, are bot-management commands. -/
inductive CallKind where
  | botManagement
  | chat
  | transcript
  | status
  | speechSynthesis
  | credentialCheck
deriving DecidableEq

structure CallSite where
  endpoint : String
  mode : Mode
  kind : CallKind
  timeoutMs : Nat
deriving DecidableEq

/-- Every `fetch` invocation in `src/index.js` with the timeout passed as its
abort signal.  `groupthinApi` (line 72) and `recallApi` (line 87) attach
`RECALL_TIMEOUT`; the TTS call (line 287) attaches `TTS_TIMEOUT`; the
check-connection OpenAI call (line 458) attaches `RECALL_TIMEOUT`. -/
def outboundCallSites : List CallSite :=
  [ ⟨"POST /bots", .hosted, .botManagement, RECALL_TIMEOUT⟩,
    ⟨"GET /bots/:id/transcript", .hosted, .transcript, RECALL_TIMEOUT⟩,
    ⟨"POST /bots/:id/speak", .hosted, .botManagement, RECALL_TIMEOUT⟩,
    ⟨"POST /bots/:id/chat", .hosted, .chat, RECALL_TIMEOUT⟩,
    ⟨"POST /bots/:id/leave", .hosted, .botManagement, RECALL_TIMEOUT⟩,
    ⟨"GET /bots/:id/status", .hosted, .status, RECALL_TIMEOUT⟩,
    ⟨"GET /bots", .hosted, .credentialCheck, RECALL_TIMEOUT⟩,
    ⟨"POST /bot/", .direct, .botManagement, RECALL_TIMEOUT⟩,
    ⟨"GET /bot/:id/transcript/", .direct, .transcript, RECALL_TIMEOUT⟩,
    ⟨"POST /bot/:id/output_audio/", .direct, .botManagement, RECALL_TIMEOUT⟩,
    ⟨"POST /bot/:id/send_chat_message/", .direct, .chat, RECALL_TIMEOUT⟩,
    ⟨"POST /bot/:id/leave_call/", .direct, .botManagement, RECALL_TIMEOUT⟩,
    ⟨"GET /bot/:id/", .direct, .status, RECALL_TIMEOUT⟩,
    ⟨"GET /bot/?limit=1", .direct, .credentialCheck, RECALL_TIMEOUT⟩,
    ⟨"POST openai /v1/audio/speech", .direct, .speechSynthesis, TTS_TIMEOUT⟩,
    ⟨"GET openai /v1/models?limit=1", .direct, .credentialCheck, RECALL_TIMEOUT⟩ ]

/-! Section: transcript data model (`get_transcript`, lines 204-233) -/

/-- One word token of a transcript entry.  `end_timestamp` is `none` when the
upstream omits the field (JavaScript `undefined`). -/
structure Word where
  text : String
  end_timestamp : Option Int
deriving DecidableEq

/-- One upstream transcript entry.  `speaker` and `words` are `none` when the
upstream omits them. -/
structure TranscriptEntry where
  speaker : Option String
  words : Option (List Word)
deriving DecidableEq

/-- The possible values of `bot.lastTranscriptTs`: JavaScript `null` (initial),
`undefined` (assigned from a word lacking `end_timestamp`), or a number. -/
inductive JSTime where
  | null
  | undefined
  | num (t : Int)
deriving DecidableEq

/-- Non-decrease of the transcript cursor: from `null` (nothing yet observed)
any value is progress, from `undefined` any non-`null` value is progress, and
numeric values must not decrease.  Assigning `undefined` over a number, or
decreasing a number, is a regression. -/
def jsTimeLe : JSTime → JSTime → Bool
  | .null, _ => true
  | .undefined, .undefined => true
  | .undefined, .num _ => true
  | .num a, .num b => decide (a ≤ b)
  | _, _ => false

/-- Lines 210 and 218-220: `entry.words?.[entry.words.length - 1]?.end_timestamp`,
the effective timestamp of an entry: the end timestamp of its last
word, `none` when the optional chain hits `undefined`. -/
def entryEffTime (e : TranscriptEntry) : Option Int :=
  match e.words with
  | none => none
  | some ws =>
    match ws.getLast? with
    | none => none
    | some w => w.end_timestamp

/-- The effective timestamp with default `0`; used only under hypotheses that
make `entryEffTime` defined. -/
def effValD (e : TranscriptEntry) : Int :=
  (entryEffTime e).getD 0

/-- The last word of the last entry of an upstream list — the value the cursor
update inspects (lines 217-218). -/
def lastWordOf (transcript : List TranscriptEntry) : Option Word :=
  match transcript.getLast? with
  | none => none
  | some last =>
    match last.words with
    | none => none
    | some ws => ws.getLast?

/-- The filter predicate `entryTime && entryTime > lastTs` (lines 209-212),
evaluated for a non-`null` cursor.  A missing effective timestamp is falsy; a
comparison against the `undefined` cursor is false (NaN semantics). -/
def jsNewCheck (lastTs : JSTime) (e : TranscriptEntry) : Bool :=
  match entryEffTime e with
  | none => false
  | some t =>
    t != 0 &&
      (match lastTs with
       | .num v => decide (v < t)
       | _ => false)

/-- Lines 205-213, `newEntries`: all entries when the cursor is `null`,
otherwise the filter. -/
def newEntries (lastTs : JSTime) (transcript : List TranscriptEntry) : List TranscriptEntry :=
  match lastTs with
  | .null => transcript
  | _ => transcript.filter (jsNewCheck lastTs)

/-- The cursor update (lines 216-222): if the list has a last entry whose
`words` array has a last word, the cursor becomes that word's
`end_timestamp` (JavaScript `undefined` when the field is missing);
otherwise the cursor is left unchanged. -/
def updateCursor (cur : JSTime) (transcript : List TranscriptEntry) : JSTime :=
  match transcript.getLast? with
  | none => cur
  | some last =>
    match last.words with
    | none => cur
    | some ws =>
      match ws.getLast? with
      | none => cur
      | some w =>
        match w.end_timestamp with
        | some t => .num t
        | none => .undefined

/-- Lines 229-233: rendering of one entry as a `"speaker: text"` line, with JavaScript
`||` fallbacks: an absent or empty speaker becomes `"Unknown"`, absent words
become the empty text. -/
def renderLine (e : TranscriptEntry) : String :=
  let speaker :=
    match e.speaker with
    | some s => if s = "" then "Unknown" else s
    | none => "Unknown"
  let text :=
    match e.words with
    | some ws => String.intercalate " " (ws.map Word.text)
    | none => ""
  speaker ++ ": " ++ text

/-! Section: session registry (`activeBots`, lines 28, 151-155) -/

/-- The per-bot session state inserted by `join_meeting` (lines 151-155). -/
structure Session where
  name : String
  meetingUrl : String
  lastTranscriptTs : JSTime
deriving DecidableEq

/-- Line 28, `activeBots`: an insertion-ordered map from bot id to session. -/
abbrev Registry := List (String × Session)

def regGet (r : Registry) (k : String) : Option Session :=
  match r.find? (fun p => p.1 == k) with
  | some p => some p.2
  | none => none

/-- JavaScript `Map.set`: replace the (unique) existing binding in place,
otherwise append a new one. -/
def regSet (r : Registry) (k : String) (v : Session) : Registry :=
  match r with
  | [] => [(k, v)]
  | p :: rest => if p.1 == k then (k, v) :: rest else p :: regSet rest k v

def regDelete (r : Registry) (k : String) : Registry :=
  r.filter (fun p => p.1 != k)

/-! Section: upstream responses -/

/-- The decoded outcome of one upstream API helper call
(`groupthinApi` / `recallApi`): `ok`/`status` with payload, or an error
with status and extracted detail text. -/
inductive ApiResult (α : Type) where
  | ok (data : α)
  | err (status : Nat) (detail : String)
deriving DecidableEq

def ApiResult.isOk {α : Type} : ApiResult α → Bool
  | .ok _ => true
  | .err _ _ => false

/-- A raw `fetch` outcome: an HTTP response, or a rejection (network error or
`AbortSignal` timeout). -/
inductive FetchOutcome (α : Type) where
  | response (ok : Bool) (status : Nat) (data : α)
  | abort (reason : String)
deriving DecidableEq

/-! Section: tool handlers.  Each handler takes the upstream outcome(s) it consumes
as arguments and reports, besides its textual result, the number of upstream
attempts it performed, the backoff sleeps it executed (in ms), and whether it
returned via a failure branch. -/

/-- Line 185: the `Unknown bot ID: ...` message. -/
def unknownBotMessage (bot_id : String) : String :=
  "Unknown bot ID: " ++ bot_id ++ ". Call join_meeting first."

def noNewSpeechMessage : String := "(No new speech since last check)"

def ownEchoMessage : String := "(Only heard own echo — no new human speech)"

structure TranscriptCallResult where
  message : String
  registry : Registry
  upstreamCalls : Nat
deriving DecidableEq

/-- The `get_transcript` handler (lines 182-245) for one invocation.
`upstream` is the outcome of the (at most one) transcript fetch; both modes
reduce the decoded payload to a list of entries.  The registry lookup happens
before any upstream call, so an unknown bot id yields zero upstream calls. -/
def get_transcript (reg : Registry) (upstream : ApiResult (List TranscriptEntry))
    (bot_id : String) : TranscriptCallResult :=
  match regGet reg bot_id with
  | none => ⟨unknownBotMessage bot_id, reg, 0⟩
  | some bot =>
    match upstream with
    | .err status detail =>
      ⟨formatApiError "Failed to get transcript" status detail, reg, 1⟩
    | .ok transcript =>
      let lastTs := bot.lastTranscriptTs
      let fresh := newEntries lastTs transcript
      let cursor2 := updateCursor lastTs transcript
      let reg2 := regSet reg bot_id { bot with lastTranscriptTs := cursor2 }
      if fresh.isEmpty then ⟨noNewSpeechMessage, reg2, 1⟩
      else
        let lines := fresh.map renderLine
        let filtered := lines.filter (fun line => !jsStartsWith line (bot.name ++ ":"))
        if filtered.isEmpty then ⟨ownEchoMessage, reg2, 1⟩
        else ⟨String.intercalate "\n" filtered, reg2, 1⟩

/-- The per-session transcript delivery sequence: given the cursor value and
the successive upstream snapshots, the list of "new entries" computed by each
successive `get_transcript` call (lines 204-222 iterated). -/
def returnedList (c : JSTime) : List (List TranscriptEntry) → List (List TranscriptEntry)
  | [] => []
  | s :: rest => newEntries c s :: returnedList (updateCursor c s) rest

structure ToolRun where
  message : String
  attempts : Nat
  sleeps : List Nat
  failed : Bool
deriving DecidableEq

/-- Line 357: the `💬 Sent in meeting chat: "..."` confirmation. -/
def chatSentMessage (message : String) : String :=
  "💬 Sent in meeting chat: \"" ++ message ++ "\""

/-- The `send_chat` handler (lines 344-358): one upstream call in either mode;
a failure is reported immediately, with no retry and no sleep. -/
def send_chat (mode : Mode) (o : ApiResult String) (message : String) : ToolRun :=
  match mode, o with
  | _, .err status detail =>
    ⟨formatApiError "Failed to send chat" status detail, 1, [], true⟩
  | _, .ok _ =>
    ⟨chatSentMessage message, 1, [], false⟩

/-- The payload of a successful hosted `/speak` response; `estimated_duration`
is `none` when the field is absent or falsy, in which case the handler falls
back to the local `(text.length * 0.065).toFixed(1)` estimate. -/
structure SpeakData where
  estimated_duration : Option String
deriving DecidableEq

def retryMarker : String := "🔊 Spoke (on retry): "

/-- The hosted-mode success message (lines 269, 274).  `est` and `wait` are the
rendered duration strings; the floating-point arithmetic producing them
(`(text.length * 0.065).toFixed(1)` and `Math.ceil(parseFloat(est) + 2)`) is
outside the integer embedding and is passed in opaquely. -/
def hostedSpokeMessage (retried : Bool) (text est wait : String) : String :=
  (if retried then retryMarker else "🔊 Spoke: ") ++
    ("\"" ++ text ++ "\" (est. " ++ est ++ "s). Wait " ++ wait ++
      "s before speaking again.")

/-- The direct-mode success messages (lines 320, 329). -/
def directSpokeMessage (retried : Bool) (text est wait : String) : String :=
  if retried then
    retryMarker ++ ("\"" ++ text ++ "\" (est. " ++ est ++ "s). Wait at least " ++
      wait ++ "s before speaking again.")
  else
    "🔊 Spoke: " ++ ("\"" ++ text ++ "\" (est. " ++ est ++ "s). Wait at least " ++
      wait ++ "s before speaking again to avoid overlap.")

/-- The hosted `speak` handler (lines 258-276): one upstream call; on failure
a single retry after `sleep(2000)`; the retry failure is reported with the
"(after retry)" label; a retry success is annotated `(on retry)`. -/
def hosted_speak (o1 o2 : ApiResult SpeakData) (text fallbackEst : String)
    (waitOf : String → String) : ToolRun :=
  match o1 with
  | .ok data =>
    let est := data.estimated_duration.getD fallbackEst
    ⟨hostedSpokeMessage false text est (waitOf est), 1, [], false⟩
  | .err _ _ =>
    match o2 with
    | .err status detail =>
      ⟨formatApiError "Failed to speak (after retry)" status detail, 2, [2000], true⟩
    | .ok data =>
      let est := data.estimated_duration.getD fallbackEst
      ⟨hostedSpokeMessage true text est (waitOf est), 2, [2000], false⟩

/-- The two raw fetches of one direct-mode `ttsAndPush` attempt
(lines 279-306): the TTS synthesis call and the audio push. -/
structure DirectAttempt where
  tts : FetchOutcome String
  push : FetchOutcome String
deriving DecidableEq

/-- Lines 279-306, `ttsAndPush`: synthesize then push; a non-ok TTS response
throws `TTS failed: ...`, a non-ok push throws `Failed to push audio: ...`,
and a fetch rejection (network error or timeout) propagates as-is.  The
result is `Except.error` exactly when the composite threw. -/
def ttsAndPush (a : DirectAttempt) : Except String Unit :=
  match a.tts with
  | .abort reason => .error reason
  | .response ok status body =>
    if !ok then .error ("TTS failed: " ++ toString status ++ " " ++ body)
    else
      match a.push with
      | .abort reason => .error reason
      | .response pushOk pushStatus pushData =>
        if !pushOk then .error ("Failed to push audio: " ++ humanRecallError pushStatus pushData)
        else .ok ()

/-- The direct-mode `speak` handler (lines 308-332): try `ttsAndPush`; on a
thrown error, `sleep(2000)` and retry once; a second throw is reported as
`Failed to speak (after retry): ...`; a retry success is annotated
`(on retry)`.  `est` stands for the rendered
`(text.length * 0.065).toFixed(1)` estimate. -/
def direct_speak (a1 a2 : DirectAttempt) (text est : String)
    (waitOf : String → String) : ToolRun :=
  match ttsAndPush a1 with
  | .ok _ => ⟨directSpokeMessage false text est (waitOf est), 1, [], false⟩
  | .error _ =>
    match ttsAndPush a2 with
    | .error msg => ⟨"Failed to speak (after retry): " ++ msg, 2, [2000], true⟩
    | .ok _ => ⟨directSpokeMessage true text est (waitOf est), 2, [2000], false⟩

/-- Line 380: the `👋 Bot left the meeting.` confirmation. -/
def leaveMessage : String := "👋 Bot left the meeting."

structure LeaveCallResult where
  message : String
  registry : Registry
  upstreamCalls : Nat
  failed : Bool
deriving DecidableEq

/-- The `leave_meeting` handler (lines 368-381): the upstream leave call is
made but its response — any status — is ignored, and a rejection is swallowed
by the `try/catch`; the registry entry is deleted unconditionally and the
local confirmation is always returned. -/
def leave_meeting (reg : Registry) (upstream : FetchOutcome String)
    (bot_id : String) : LeaveCallResult :=
  match upstream with
  | .response _ _ _ => ⟨leaveMessage, regDelete reg bot_id, 1, false⟩
  | .abort _ => ⟨leaveMessage, regDelete reg bot_id, 1, false⟩

/-- The decoded status payload used by `bot_status` (lines 391-423).  For the
direct mode, `latestCode` stands for `status_changes[last]?.code || "unknown"`
and `meeting_url` for the already-stringified meeting url. -/
structure StatusData where
  bot_name : String
  statusText : String
  meeting_url : String
  created_at : String
deriving DecidableEq

def botStatusMessage (d : StatusData) : String :=
  "Bot \"" ++ d.bot_name ++ "\" — Status: " ++ d.statusText ++
    "\nMeeting: " ++ d.meeting_url ++ "\nCreated: " ++ d.created_at

/-- The `bot_status` handler (lines 391-423): one upstream call in either
mode, no registry access; failure is normalized, success renders the status
fields. -/
def bot_status (mode : Mode) (o : ApiResult StatusData) : ToolRun :=
  match mode, o with
  | _, .err status detail =>
    ⟨formatApiError "Failed to check status" status detail, 1, [], true⟩
  | _, .ok d =>
    ⟨botStatusMessage d, 1, [], false⟩

/-! The bodies of `speak`, `send_chat` and `bot_status` in `src/index.js`
never mention `activeBots`: run against the ambient server state, the
registry passes through them untouched.  The wrappers below record that
relationship between those handlers and the registry. -/

def send_chat_tool (reg : Registry) (mode : Mode) (o : ApiResult String)
    (message : String) : ToolRun × Registry :=
  (send_chat mode o message, reg)

def bot_status_tool (reg : Registry) (mode : Mode) (o : ApiResult StatusData) :
    ToolRun × Registry :=
  (bot_status mode o, reg)

def hosted_speak_tool (reg : Registry) (o1 o2 : ApiResult SpeakData)
    (text fallbackEst : String) (waitOf : String → String) : ToolRun × Registry :=
  (hosted_speak o1 o2 text fallbackEst waitOf, reg)

def direct_speak_tool (reg : Registry) (a1 a2 : DirectAttempt) (text est : String)
    (waitOf : String → String) : ToolRun × Registry :=
  (direct_speak a1 a2 text est waitOf, reg)

/-! Section: helper lemmas -/

theorem ne_of_firstChar_ne {a b : String} {c d : Char}
    (ha : firstChar a = some c) (hb : firstChar b = some d) (hcd : c ≠ d) : a ≠ b := by
  intro e
  rw [e, hb] at ha
  exact hcd (Option.some.inj ha).symm

theorem regGet_regDelete (r : Registry) (k : String) :
    regGet (regDelete r k) k = none := by
  induction r with
  | nil => rfl
  | cons p rest ih =>
    by_cases hb : (p.1 == k) = true
    · simpa [regDelete, List.filter_cons, bne, hb] using ih
    · have hfalse : (p.1 == k) = false := by
        cases hpk : (p.1 == k) with
        | true => exact absurd hpk hb
        | false => rfl
      simpa [regDelete, regGet, List.filter_cons, List.find?, bne, hfalse] using ih

theorem regGet_regSet_self (r : Registry) (k : String) (v : Session) :
    regGet (regSet r k v) k = some v := by
  induction r with
  | nil => simp [regSet, regGet, List.find?]
  | cons p rest ih =>
    by_cases hb : (p.1 == k) = true
    · simp [regSet, hb, regGet, List.find?]
    · have hfalse : (p.1 == k) = false := by
        cases hpk : (p.1 == k) with
        | true => exact absurd hpk hb
        | false => rfl
      simpa [regSet, hfalse, regGet, List.find?] using ih

theorem jsTimeLe_refl (t : JSTime) : jsTimeLe t t = true := by
  cases t <;> simp [jsTimeLe]

/-! Section: claim theorems -/

/-- Claim C7: at startup: a (truthy) Hosted credential selects Hosted mode, even
when both Direct credentials are present; otherwise both Direct credentials
(each with its fallback variable) select Direct mode; otherwise the process
exits fatally with status 1 and the message describing both satisfying
credential sets, before any tool is served. -/
theorem startup_mode_selection (e : Env) :
    (truthy e.GROUPTHINK_TOKEN = true → startup e = .hosted) ∧
    (truthy e.GROUPTHINK_TOKEN = false → truthy (effRecallToken e) = true →
      truthy (effOpenaiKey e) = true → startup e = .direct) ∧
    (truthy e.GROUPTHINK_TOKEN = false →
      (truthy (effRecallToken e) = false ∨ truthy (effOpenaiKey e) = false) →
      startup e = .fatalExit authErrorMessage 1) := by
  refine ⟨fun h => ?_, fun h hr ho => ?_, fun h hor => ?_⟩
  · simp [startup, isHostedMode, h]
  · simp [startup, isHostedMode, isDirectMode, h, hr, ho]
  · rcases hor with hf | hf <;> simp [startup, isHostedMode, isDirectMode, h, hf]

/-- Witness for `startup_mode_selection` at concrete environments: hosted wins
over complete direct credentials; direct is selected without a hosted token;
an incomplete credential set is fatal. -/
theorem startup_mode_selection_witness :
    startup ⟨some "gt", some "rt", none, some "ok", none⟩ = .hosted ∧
    startup ⟨none, some "rt", none, some "ok", none⟩ = .direct ∧
    startup ⟨none, none, none, some "ok", none⟩ = .fatalExit authErrorMessage 1 :=
  ⟨(startup_mode_selection _).1 (by decide),
   (startup_mode_selection _).2.1 (by decide) (by decide) (by decide),
   (startup_mode_selection _).2.2 (by decide) (Or.inl (by decide))⟩

/-- Claim C8: the `join_meeting` url normalization: a `lll-llll-lll` lowercase
meeting code is rewritten to `https://meet.google.com/<code>`; any other
input that does not already begin with the scheme prefix (`"http"`, per the
source's `url.startsWith("http")` check and the spec's examples) gets the
same prefix prepended; an input beginning with the scheme prefix is passed
through unchanged. -/
theorem normalize_meeting_url_claim (s : String) :
    (isMeetCode s = true → normalizeMeetingUrl s = "https://meet.google.com/" ++ s) ∧
    (jsStartsWith s "http" = false → normalizeMeetingUrl s = "https://meet.google.com/" ++ s) ∧
    (isMeetCode s = false → jsStartsWith s "http" = true → normalizeMeetingUrl s = s) := by
  refine ⟨fun h => ?_, fun h => ?_, fun h1 h2 => ?_⟩
  · simp [normalizeMeetingUrl, h]
  · by_cases hm : isMeetCode s <;> simp [normalizeMeetingUrl, hm, h]
  · simp [normalizeMeetingUrl, h1, h2]

/-- Witness for `normalize_meeting_url_claim` on the spec's three examples. -/
theorem normalize_meeting_url_claim_witness :
    normalizeMeetingUrl "abc-defg-hij" = "https://meet.google.com/abc-defg-hij" ∧
    normalizeMeetingUrl "custom-code" = "https://meet.google.com/custom-code" ∧
    normalizeMeetingUrl "https://zoom.us/j/123" = "https://zoom.us/j/123" :=
  ⟨(normalize_meeting_url_claim _).1 (by decide),
   (normalize_meeting_url_claim _).2.1 (by decide),
   (normalize_meeting_url_claim _).2.2 (by decide) (by decide)⟩

/-- Claim C9: every outbound call site carries a bounded timeout: 30 seconds
(`RECALL_TIMEOUT`) for bot-management, chat, transcript and status calls in
both modes, 60 seconds (`TTS_TIMEOUT`) for the speech-synthesis call; and an
aborted (timed-out) synthesis fetch surfaces as an ordinary error value that
the speak handler converts into a normal failure result rather than a crash. -/
theorem timeout_policy :
    (∀ c ∈ outboundCallSites, c.timeoutMs = RECALL_TIMEOUT ∨ c.timeoutMs = TTS_TIMEOUT) ∧
    (∀ c ∈ outboundCallSites,
      (c.kind = CallKind.botManagement ∨ c.kind = CallKind.chat ∨
        c.kind = CallKind.transcript ∨ c.kind = CallKind.status) → c.timeoutMs = 30000) ∧
    (∀ c ∈ outboundCallSites, c.kind = CallKind.speechSynthesis → c.timeoutMs = 60000) ∧
    RECALL_TIMEOUT = 30000 ∧ TTS_TIMEOUT = 60000 ∧
    (∀ reason push, ttsAndPush ⟨.abort reason, push⟩ = .error reason) := by
  refine ⟨?_, ?_, ?_, rfl, rfl, fun reason push => rfl⟩ <;>
  · intro c hc
    simp only [outboundCallSites, List.mem_cons, List.not_mem_nil, or_false] at hc
    rcases hc with rfl|rfl|rfl|rfl|rfl|rfl|rfl|rfl|rfl|rfl|rfl|rfl|rfl|rfl|rfl|rfl <;> decide

/-- Witness for `timeout_policy`: the synthesis call site gets 60 s, and a
timed-out synthesis fetch becomes an error value. -/
theorem timeout_policy_witness :
    (⟨"POST openai /v1/audio/speech", .direct, .speechSynthesis, TTS_TIMEOUT⟩ : CallSite).timeoutMs
        = 60000 ∧
    ttsAndPush ⟨FetchOutcome.abort "timed out", FetchOutcome.response true 200 ""⟩
        = Except.error "timed out" :=
  ⟨timeout_policy.2.2.1 _ (by decide) rfl,
   timeout_policy.2.2.2.2.2 "timed out" _⟩

/-- Claim C6: `get_transcript` on an unregistered bot id returns the
UnknownSession message, performs zero upstream calls, and leaves the registry
(hence every session cursor) unchanged. -/
theorem get_transcript_unknown_session (reg : Registry)
    (upstream : ApiResult (List TranscriptEntry)) (bot_id : String)
    (h : regGet reg bot_id = none) :
    get_transcript reg upstream bot_id = ⟨unknownBotMessage bot_id, reg, 0⟩ := by
  unfold get_transcript
  rw [h]

/-- Witness for `get_transcript_unknown_session` on an empty registry. -/
theorem get_transcript_unknown_session_witness :
    regGet [] "bot-1" = none ∧
    get_transcript [] (.ok []) "bot-1" = ⟨unknownBotMessage "bot-1", [], 0⟩ :=
  ⟨rfl, get_transcript_unknown_session [] (.ok []) "bot-1" rfl⟩

/-- Claim C5: `leave_meeting` always returns the local confirmation and deletes
the registry entry, for every bot id (registered or not) and every upstream
outcome — ok, any failing status (e.g. 5xx), or a rejected/timed-out fetch —
and never takes a failure branch. -/
theorem leave_meeting_always_local (reg : Registry) (upstream : FetchOutcome String)
    (bot_id : String) :
    (leave_meeting reg upstream bot_id).message = leaveMessage ∧
    (leave_meeting reg upstream bot_id).registry = regDelete reg bot_id ∧
    regGet (leave_meeting reg upstream bot_id).registry bot_id = none ∧
    (leave_meeting reg upstream bot_id).failed = false ∧
    (leave_meeting reg upstream bot_id).upstreamCalls = 1 := by
  cases upstream <;> exact ⟨rfl, rfl, regGet_regDelete reg bot_id, rfl, rfl⟩

/-- Claim C3, amended: `send_chat` performs exactly one upstream attempt in
either mode: on failure the normalized failure is reported immediately, with
no retry and no backoff sleep; on success the confirmation echo is returned. -/
theorem send_chat_single_attempt (mode : Mode) (o : ApiResult String) (m : String) :
    (send_chat mode o m).attempts = 1 ∧
    (send_chat mode o m).sleeps = [] ∧
    ((send_chat mode o m).failed = true ↔ o.isOk = false) ∧
    (∀ status detail, o = .err status detail →
      (send_chat mode o m).message = formatApiError "Failed to send chat" status detail) ∧
    (o.isOk = true → (send_chat mode o m).message = chatSentMessage m) := by
  cases o with
  | ok d =>
    refine ⟨rfl, rfl, by simp [send_chat, ApiResult.isOk], ?_, fun _ => rfl⟩
    intro status detail h
    exact absurd h (by simp)
  | err status detail =>
    refine ⟨rfl, rfl, by simp [send_chat, ApiResult.isOk], ?_, ?_⟩
    · intro s2 d2 h
      cases h
      rfl
    · intro h
      exact absurd h (by simp [ApiResult.isOk])

/-- Witness for `send_chat_single_attempt`: a successful send is a single
attempt with the echo message; a failed send is a single attempt reporting the
normalized error. -/
theorem send_chat_single_attempt_witness :
    (send_chat .direct (.ok "") "hello").attempts = 1 ∧
    (send_chat .direct (.ok "") "hello").message = chatSentMessage "hello" ∧
    (send_chat .hosted (.err 500 "x") "hello").message
      = formatApiError "Failed to send chat" 500 "x" :=
  ⟨(send_chat_single_attempt .direct (.ok "") "hello").1,
   (send_chat_single_attempt .direct (.ok "") "hello").2.2.2.2 rfl,
   (send_chat_single_attempt .hosted (.err 500 "x") "hello").2.2.2.1 500 "x" rfl⟩

/-- Counterexample to claim C3 as stated: the claim says a failed chat send is retried once
after a 2-second backoff and a failure is reported only after the retry also
fails.  On a first-attempt failure the handler in fact performs exactly one
upstream attempt, sleeps not at all, and reports the failure immediately. -/
theorem send_chat_retry_counterexample :
    (send_chat .hosted (.err 500 "upstream error") "hi").attempts = 1 ∧
    (send_chat .hosted (.err 500 "upstream error") "hi").sleeps = [] ∧
    (send_chat .hosted (.err 500 "upstream error") "hi").failed = true ∧
    (send_chat .hosted (.err 500 "upstream error") "hi").attempts ≠ 2 := by
  decide

/-- Claim C4: the `speak` retry, in both modes: when the first upstream attempt fails,
exactly one retry is made after a single 2000 ms backoff (two attempts in
total); if the retry succeeds the success message carries the `(on retry)`
annotation; a failure result is returned only when both attempts fail.  When
the first attempt succeeds there is exactly one attempt, no sleep and no
failure. -/
theorem speak_retry_policy (text fallbackEst est : String) (waitOf : String → String) :
    (∀ (status : Nat) (detail : String) (o2 : ApiResult SpeakData),
      (hosted_speak (.err status detail) o2 text fallbackEst waitOf).attempts = 2 ∧
      (hosted_speak (.err status detail) o2 text fallbackEst waitOf).sleeps = [2000] ∧
      ((hosted_speak (.err status detail) o2 text fallbackEst waitOf).failed = true ↔
        o2.isOk = false) ∧
      (∀ d, o2 = .ok d → ∃ rest,
        (hosted_speak (.err status detail) o2 text fallbackEst waitOf).message
          = retryMarker ++ rest) ∧
      (∀ s2 d2, o2 = .err s2 d2 →
        (hosted_speak (.err status detail) o2 text fallbackEst waitOf).message
          = formatApiError "Failed to speak (after retry)" s2 d2)) ∧
    (∀ (d : SpeakData) (o2 : ApiResult SpeakData),
      (hosted_speak (.ok d) o2 text fallbackEst waitOf).attempts = 1 ∧
      (hosted_speak (.ok d) o2 text fallbackEst waitOf).sleeps = [] ∧
      (hosted_speak (.ok d) o2 text fallbackEst waitOf).failed = false) ∧
    (∀ (a1 a2 : DirectAttempt) (msg1 : String), ttsAndPush a1 = .error msg1 →
      (direct_speak a1 a2 text est waitOf).attempts = 2 ∧
      (direct_speak a1 a2 text est waitOf).sleeps = [2000] ∧
      ((direct_speak a1 a2 text est waitOf).failed = true ↔
        ∃ m2, ttsAndPush a2 = .error m2) ∧
      (ttsAndPush a2 = .ok () → ∃ rest,
        (direct_speak a1 a2 text est waitOf).message = retryMarker ++ rest) ∧
      (∀ m2, ttsAndPush a2 = .error m2 →
        (direct_speak a1 a2 text est waitOf).message
          = "Failed to speak (after retry): " ++ m2)) ∧
    (∀ (a1 a2 : DirectAttempt), ttsAndPush a1 = .ok () →
      (direct_speak a1 a2 text est waitOf).attempts = 1 ∧
      (direct_speak a1 a2 text est waitOf).sleeps = [] ∧
      (direct_speak a1 a2 text est waitOf).failed = false) := by
  refine ⟨?_, ?_, ?_, ?_⟩
  · intro status detail o2
    cases o2 with
    | ok d =>
      refine ⟨rfl, rfl, by simp [hosted_speak, ApiResult.isOk], ?_, ?_⟩
      · intro d2 h
        exact ⟨_, rfl⟩
      · intro s2 d2 h
        exact absurd h (by simp)
    | err s2 d2 =>
      refine ⟨rfl, rfl, by simp [hosted_speak, ApiResult.isOk], ?_, ?_⟩
      · intro d h
        exact absurd h (by simp)
      · intro s3 d3 h
        cases h
        rfl
  · intro d o2
    exact ⟨rfl, rfl, rfl⟩
  · intro a1 a2 msg1 h1
    unfold direct_speak
    rw [h1]
    cases h2 : ttsAndPush a2 with
    | ok u =>
      cases u
      refine ⟨rfl, rfl, by simp, fun _ => ⟨_, rfl⟩, ?_⟩
      intro m2 hm
      exact absurd hm (by simp)
    | error m2 =>
      refine ⟨rfl, rfl, ⟨fun _ => ⟨m2, rfl⟩, fun _ => rfl⟩, ?_, ?_⟩
      · intro hok
        exact absurd hok (by simp)
      · intro m3 hm
        cases hm
        rfl
  · intro a1 a2 h1
    unfold direct_speak
    rw [h1]
    exact ⟨rfl, rfl, rfl⟩

/-- Witness for `speak_retry_policy`: a failing-then-succeeding hosted speak
takes two attempts, one 2000 ms backoff, and an `(on retry)`-annotated
message; a failing-then-succeeding direct speak takes two attempts. -/
theorem speak_retry_policy_witness :
    (hosted_speak (.err 500 "x") (.ok ⟨some "3"⟩) "hello" "0.3" (fun _ => "5")).attempts = 2 ∧
    (hosted_speak (.err 500 "x") (.ok ⟨some "3"⟩) "hello" "0.3" (fun _ => "5")).sleeps = [2000] ∧
    (∃ rest, (hosted_speak (.err 500 "x") (.ok ⟨some "3"⟩) "hello" "0.3"
      (fun _ => "5")).message = retryMarker ++ rest) ∧
    (direct_speak ⟨.abort "timeout", .response true 200 ""⟩
      ⟨.response true 200 "", .response true 200 ""⟩ "hello" "0.3"
      (fun _ => "5")).attempts = 2 :=
  ⟨((speak_retry_policy "hello" "0.3" "0.3" (fun _ => "5")).1 500 "x" (.ok ⟨some "3"⟩)).1,
   ((speak_retry_policy "hello" "0.3" "0.3" (fun _ => "5")).1 500 "x" (.ok ⟨some "3"⟩)).2.1,
   ((speak_retry_policy "hello" "0.3" "0.3" (fun _ => "5")).1 500 "x"
     (.ok ⟨some "3"⟩)).2.2.2.1 ⟨some "3"⟩ rfl,
   ((speak_retry_policy "hello" "0.3" "0.3" (fun _ => "5")).2.2.1
     ⟨.abort "timeout", .response true 200 ""⟩
     ⟨.response true 200 "", .response true 200 ""⟩ "timeout" rfl).1⟩

theorem updateCursor_mono (cur : JSTime) (transcript : List TranscriptEntry)
    (h : ∀ w, lastWordOf transcript = some w →
      ∃ t, w.end_timestamp = some t ∧ jsTimeLe cur (.num t) = true) :
    jsTimeLe cur (updateCursor cur transcript) = true := by
  cases hL : transcript.getLast? with
  | none => simp [updateCursor, hL, jsTimeLe_refl]
  | some last =>
    cases hW : last.words with
    | none => simp [updateCursor, hL, hW, jsTimeLe_refl]
    | some ws =>
      cases hws : ws.getLast? with
      | none => simp [updateCursor, hL, hW, hws, jsTimeLe_refl]
      | some w =>
        obtain ⟨t, ht, hle⟩ := h w (by simp [lastWordOf, hL, hW, hws])
        simpa [updateCursor, hL, hW, hws, ht] using hle

/-- Claim C1, amended: for a registered session, a `get_transcript` call leaves
the cursor non-decreasing provided that, whenever the upstream list's last
entry has a last word, that word carries an end timestamp that is at least
the stored numeric cursor (vacuously so when the cursor is `null` or
`undefined`); an upstream failure leaves the registry unchanged.  (The
unamended claim — non-decrease for arbitrary upstream lists — is refuted by
`cursor_decrease_counterexample`.) -/
theorem get_transcript_cursor_monotone (reg : Registry) (bot_id : String) (bot : Session)
    (transcript : List TranscriptEntry)
    (hreg : regGet reg bot_id = some bot)
    (hlast : ∀ w, lastWordOf transcript = some w →
      ∃ t, w.end_timestamp = some t ∧ jsTimeLe bot.lastTranscriptTs (.num t) = true) :
    (∃ bot2,
      regGet (get_transcript reg (.ok transcript) bot_id).registry bot_id = some bot2 ∧
      jsTimeLe bot.lastTranscriptTs bot2.lastTranscriptTs = true) ∧
    (∀ status detail,
      (get_transcript reg (.err status detail) bot_id).registry = reg) := by
  constructor
  · refine ⟨{ bot with lastTranscriptTs := updateCursor bot.lastTranscriptTs transcript },
      ?_, updateCursor_mono _ _ hlast⟩
    have hr : (get_transcript reg (.ok transcript) bot_id).registry
        = regSet reg bot_id
            { bot with lastTranscriptTs := updateCursor bot.lastTranscriptTs transcript } := by
      unfold get_transcript
      rw [hreg]
      dsimp only
      split_ifs <;> rfl
    rw [hr, regGet_regSet_self]
  · intro status detail
    unfold get_transcript
    rw [hreg]

/-- Witness for `get_transcript_cursor_monotone` on a fresh session
(cursor `null`) receiving a single well-timestamped entry. -/
theorem get_transcript_cursor_monotone_witness :
    ∃ bot2,
      regGet (get_transcript [("b", ⟨"Agent", "url", JSTime.null⟩)]
          (.ok [⟨some "Dana", some [⟨"hi", some 5⟩]⟩]) "b").registry "b" = some bot2 ∧
      jsTimeLe JSTime.null bot2.lastTranscriptTs = true :=
  (get_transcript_cursor_monotone [("b", ⟨"Agent", "url", JSTime.null⟩)] "b"
    ⟨"Agent", "url", JSTime.null⟩ [⟨some "Dana", some [⟨"hi", some 5⟩]⟩]
    (by decide)
    (by
      intro w hw
      rw [show lastWordOf [⟨some "Dana", some [⟨"hi", some (5 : Int)⟩]⟩]
            = some ⟨"hi", some 5⟩ from by decide] at hw
      obtain rfl : (⟨"hi", some 5⟩ : Word) = w := Option.some.inj hw
      exact ⟨5, rfl, rfl⟩)).1

/-- Counterexample to claim C1 as stated: the cursor is not monotone for arbitrary
upstream lists: a session whose cursor is `5` that receives a snapshot whose
single entry ends at timestamp `3` has its cursor overwritten with `3 < 5`. -/
theorem cursor_decrease_counterexample :
    (get_transcript [("b", ⟨"Agent", "url", JSTime.num 5⟩)]
        (.ok [⟨some "Dana", some [⟨"later", some 3⟩]⟩]) "b").registry
      = [("b", ⟨"Agent", "url", JSTime.num 3⟩)] ∧
    jsTimeLe (JSTime.num 5) (JSTime.num 3) = false ∧
    ((3 : Int) < 5) := by
  decide

/-- Claim C10: `speak` (in both modes), `send_chat`, `bot_status` and
`leave_meeting` never consult the registry: their results are unchanged under
any replacement of the registry, the registry passes through them untouched
(except for `leave_meeting`'s unconditional delete), none of them can produce
the UnknownSession message for any id, and each performs at least one
upstream attempt for every bot id, registered or not.  Only `get_transcript`
checks the registry first, answering without any upstream call when the id is
unknown. -/
theorem tools_bypass_registry (reg reg2 : Registry) (mode : Mode) (bot_id : String)
    (oChat : ApiResult String) (m : String) (oStat : ApiResult StatusData)
    (o1 o2 : ApiResult SpeakData) (a1 a2 : DirectAttempt)
    (text fallbackEst est : String) (waitOf : String → String)
    (oLeave : FetchOutcome String) (oT : ApiResult (List TranscriptEntry)) :
    ((send_chat_tool reg mode oChat m).1 = (send_chat_tool reg2 mode oChat m).1 ∧
      (send_chat_tool reg mode oChat m).2 = reg) ∧
    ((bot_status_tool reg mode oStat).1 = (bot_status_tool reg2 mode oStat).1 ∧
      (bot_status_tool reg mode oStat).2 = reg) ∧
    ((hosted_speak_tool reg o1 o2 text fallbackEst waitOf).1
        = (hosted_speak_tool reg2 o1 o2 text fallbackEst waitOf).1 ∧
      (hosted_speak_tool reg o1 o2 text fallbackEst waitOf).2 = reg) ∧
    ((direct_speak_tool reg a1 a2 text est waitOf).1
        = (direct_speak_tool reg2 a1 a2 text est waitOf).1 ∧
      (direct_speak_tool reg a1 a2 text est waitOf).2 = reg) ∧
    ((leave_meeting reg oLeave bot_id).message
        = (leave_meeting reg2 oLeave bot_id).message ∧
      (leave_meeting reg oLeave bot_id).registry = regDelete reg bot_id) ∧
    (∀ id2, (send_chat mode oChat m).message ≠ unknownBotMessage id2) ∧
    (∀ id2, (bot_status mode oStat).message ≠ unknownBotMessage id2) ∧
    (∀ id2, (hosted_speak o1 o2 text fallbackEst waitOf).message ≠ unknownBotMessage id2) ∧
    (∀ id2, (direct_speak a1 a2 text est waitOf).message ≠ unknownBotMessage id2) ∧
    (∀ id2, (leave_meeting reg oLeave bot_id).message ≠ unknownBotMessage id2) ∧
    (send_chat mode oChat m).attempts = 1 ∧
    (bot_status mode oStat).attempts = 1 ∧
    1 ≤ (hosted_speak o1 o2 text fallbackEst waitOf).attempts ∧
    1 ≤ (direct_speak a1 a2 text est waitOf).attempts ∧
    (leave_meeting reg oLeave bot_id).upstreamCalls = 1 ∧
    (regGet reg bot_id = none → (get_transcript reg oT bot_id).upstreamCalls = 0) := by
  refine ⟨⟨rfl, rfl⟩, ⟨rfl, rfl⟩, ⟨rfl, rfl⟩, ⟨rfl, rfl⟩, ?_, ?_, ?_, ?_, ?_, ?_, ?_, ?_, ?_,
    ?_, ?_, ?_⟩
  · cases oLeave <;> exact ⟨rfl, rfl⟩
  · intro id2
    cases oChat with
    | ok d => exact ne_of_firstChar_ne rfl rfl (by decide)
    | err s d => exact ne_of_firstChar_ne rfl rfl (by decide)
  · intro id2
    cases oStat with
    | ok d => exact ne_of_firstChar_ne rfl rfl (by decide)
    | err s d => exact ne_of_firstChar_ne rfl rfl (by decide)
  · intro id2
    cases o1 with
    | ok d => exact ne_of_firstChar_ne rfl rfl (by decide)
    | err s d =>
      cases o2 with
      | ok d2 => exact ne_of_firstChar_ne rfl rfl (by decide)
      | err s2 d2 => exact ne_of_firstChar_ne rfl rfl (by decide)
  · intro id2
    unfold direct_speak
    cases ttsAndPush a1 with
    | ok u => exact ne_of_firstChar_ne rfl rfl (by decide)
    | error msg1 =>
      cases ttsAndPush a2 with
      | ok u => exact ne_of_firstChar_ne rfl rfl (by decide)
      | error m2 => exact ne_of_firstChar_ne rfl rfl (by decide)
  · intro id2
    cases oLeave <;> exact ne_of_firstChar_ne rfl rfl (by decide)
  · cases oChat <;> rfl
  · cases oStat <;> rfl
  · cases o1 with
    | ok d => exact Nat.le_refl 1
    | err s d => cases o2 <;> exact (by decide : (1 : Nat) ≤ 2)
  · unfold direct_speak
    cases ttsAndPush a1 with
    | ok u => exact Nat.le_refl 1
    | error msg1 => cases ttsAndPush a2 <;> exact (by decide : (1 : Nat) ≤ 2)
  · cases oLeave <;> rfl
  · intro h
    unfold get_transcript
    rw [h]

/-- Witness for `tools_bypass_registry` on concrete inputs: a chat send on an
empty registry is not an UnknownSession answer, while `get_transcript` on an
unregistered id makes no upstream call. -/
theorem tools_bypass_registry_witness :
    (send_chat .hosted (.ok "") "m").message ≠ unknownBotMessage "b" ∧
    (get_transcript [] (.ok []) "b").upstreamCalls = 0 := by
  have H := tools_bypass_registry [] [] .hosted "b" (.ok "") "m" (.ok ⟨"n", "s", "u", "c"⟩)
    (.ok ⟨none⟩) (.ok ⟨none⟩) ⟨.response true 200 "", .response true 200 ""⟩
    ⟨.response true 200 "", .response true 200 ""⟩ "t" "f" "e" (fun _ => "w")
    (.response true 200 "") (.ok [])
  exact ⟨H.2.2.2.2.2.1 "b", H.2.2.2.2.2.2.2.2.2.2.2.2.2.2.2 rfl⟩

/-! Section: supporting lemmas for the transcript-cursoring sequence -/

theorem mem_newEntries_num (v : Int) (s : List TranscriptEntry) (e : TranscriptEntry)
    (he : e ∈ newEntries (.num v) s) :
    e ∈ s ∧ ∃ t, entryEffTime e = some t ∧ t ≠ 0 ∧ v < t := by
  simp only [newEntries] at he
  rw [List.mem_filter] at he
  obtain ⟨hs, hcheck⟩ := he
  refine ⟨hs, ?_⟩
  unfold jsNewCheck at hcheck
  cases ht : entryEffTime e with
  | none => rw [ht] at hcheck; cases hcheck
  | some t =>
    rw [ht, Bool.and_eq_true] at hcheck
    exact ⟨t, rfl, by simpa using hcheck.1, of_decide_eq_true hcheck.2⟩

theorem effValD_le_getLast :
    ∀ (s : List TranscriptEntry), s.Pairwise (fun a b => effValD a ≤ effValD b) →
    ∀ e x, e ∈ s → s.getLast? = some x → effValD e ≤ effValD x := by
  intro s
  induction s with
  | nil => intro _ e x he _; cases he
  | cons a rest ih =>
    intro hs e x he hx
    obtain ⟨ha, hrest⟩ := List.pairwise_cons.mp hs
    cases rest with
    | nil =>
      obtain rfl : a = x := by simpa [List.getLast?] using hx
      obtain rfl : e = a := by simpa using he
      exact le_refl _
    | cons b rest2 =>
      have hx2 : (b :: rest2).getLast? = some x := by
        rwa [List.getLast?_cons_cons] at hx
      rcases List.mem_cons.mp he with rfl | he2
      · exact ha x (List.mem_of_getLast?_eq_some hx2)
      · exact ih hrest e x he2 hx2

theorem updateCursor_eq_num (c : JSTime) (s : List TranscriptEntry) (x : TranscriptEntry)
    (hx : s.getLast? = some x) (hts : (entryEffTime x).isSome = true) :
    updateCursor c s = .num (effValD x) := by
  cases hw : x.words with
  | none => simp [entryEffTime, hw] at hts
  | some ws =>
    cases hl : ws.getLast? with
    | none => simp [entryEffTime, hw, hl] at hts
    | some w =>
      cases he : w.end_timestamp with
      | none => simp [entryEffTime, hw, hl, he] at hts
      | some t => simp [updateCursor, hx, hw, hl, he, effValD, entryEffTime]

theorem returned_disjoint_aux :
    ∀ (snaps : List (List TranscriptEntry)) (s0 : List TranscriptEntry)
      (x0 : TranscriptEntry),
      s0.getLast? = some x0 →
      List.Chain' (· <+: ·) (s0 :: snaps) →
      (∀ s ∈ snaps, ∀ e ∈ s, (entryEffTime e).isSome = true) →
      (∀ s ∈ snaps, s.Pairwise (fun a b => effValD a ≤ effValD b)) →
      (∀ r ∈ returnedList (.num (effValD x0)) snaps, ∀ e ∈ r, effValD x0 < effValD e) ∧
      (returnedList (.num (effValD x0)) snaps).Pairwise
        (fun r1 r2 => ∀ e ∈ r1, e ∉ r2) := by
  intro snaps
  induction snaps with
  | nil =>
    intro s0 x0 _ _ _ _
    exact ⟨by simp [returnedList], by simp [returnedList]⟩
  | cons s1 rest ih =>
    intro s0 x0 hx0 hchain hts hsorted
    obtain ⟨h01, hchain1⟩ := List.chain'_cons.mp hchain
    have hx0s1 : x0 ∈ s1 := h01.subset (List.mem_of_getLast?_eq_some hx0)
    have hs1ne : s1 ≠ [] := List.ne_nil_of_mem hx0s1
    obtain ⟨x1, hx1⟩ : ∃ x1, s1.getLast? = some x1 := by
      cases h : s1.getLast? with
      | none => exact absurd (List.getLast?_eq_none_iff.mp h) hs1ne
      | some y => exact ⟨y, rfl⟩
    have hts1 : ∀ e ∈ s1, (entryEffTime e).isSome = true :=
      hts s1 (List.mem_cons_self _ _)
    have hsort1 : s1.Pairwise (fun a b => effValD a ≤ effValD b) :=
      hsorted s1 (List.mem_cons_self _ _)
    have hx1s1 : x1 ∈ s1 := List.mem_of_getLast?_eq_some hx1
    have h0le1 : effValD x0 ≤ effValD x1 := effValD_le_getLast s1 hsort1 x0 x1 hx0s1 hx1
    have hcur : updateCursor (.num (effValD x0)) s1 = .num (effValD x1) :=
      updateCursor_eq_num _ s1 x1 hx1 (hts1 x1 hx1s1)
    have hIH := ih s1 x1 hx1 hchain1
      (fun s hs => hts s (List.mem_cons_of_mem _ hs))
      (fun s hs => hsorted s (List.mem_cons_of_mem _ hs))
    have hlist : returnedList (.num (effValD x0)) (s1 :: rest)
        = newEntries (.num (effValD x0)) s1 :: returnedList (.num (effValD x1)) rest := by
      simp [returnedList, hcur]
    constructor
    · intro r hr e he
      rw [hlist] at hr
      rcases List.mem_cons.mp hr with rfl | hr2
      · obtain ⟨_, t, ht, _, hvt⟩ := mem_newEntries_num _ _ _ he
        have : effValD e = t := by simp [effValD, ht]
        rw [this]
        exact hvt
      · exact lt_of_le_of_lt h0le1 (hIH.1 r hr2 e he)
    · rw [hlist]
      refine List.Pairwise.cons ?_ hIH.2
      intro r hr e he hcontra
      obtain ⟨hes1, t, ht, _, _⟩ := mem_newEntries_num _ _ _ he
      have hle : effValD e ≤ effValD x1 := effValD_le_getLast s1 hsort1 e x1 hes1 hx1
      have hgt : effValD x1 < effValD e := hIH.1 r hr e hcontra
      exact absurd hle (not_le.mpr hgt)

/-- Claim C2, amended: starting from a fresh session (cursor `null`), across any
sequence of `get_transcript` calls whose upstream snapshots form an
append-only (prefix) chain, no transcript entry is computed as "new" in more
than one call — provided additionally (as the counterexample
`duplicate_delivery_counterexample` forces) that every entry carries a word
end-timestamp and that each snapshot lists entries in non-decreasing
effective-timestamp order. -/
theorem get_transcript_no_duplicate_entries (snaps : List (List TranscriptEntry))
    (hchain : List.Chain' (· <+: ·) snaps)
    (hts : ∀ s ∈ snaps, ∀ e ∈ s, (entryEffTime e).isSome = true)
    (hsorted : ∀ s ∈ snaps, s.Pairwise (fun a b => effValD a ≤ effValD b)) :
    (returnedList .null snaps).Pairwise (fun r1 r2 => ∀ e ∈ r1, e ∉ r2) := by
  induction snaps with
  | nil => simp [returnedList]
  | cons s rest ih =>
    cases hs : s with
    | nil =>
      have hlist : returnedList .null ([] :: rest) = [] :: returnedList .null rest := by
        simp [returnedList, updateCursor, newEntries]
      rw [hlist]
      refine List.Pairwise.cons (fun r _ e he _ => absurd he (List.not_mem_nil e)) ?_
      subst hs
      exact ih hchain.tail
        (fun s2 h2 => hts s2 (List.mem_cons_of_mem _ h2))
        (fun s2 h2 => hsorted s2 (List.mem_cons_of_mem _ h2))
    | cons a s2 =>
      subst hs
      obtain ⟨x, hx⟩ : ∃ x, (a :: s2).getLast? = some x := by
        cases h : (a :: s2).getLast? with
        | none => exact absurd (List.getLast?_eq_none_iff.mp h) (by simp)
        | some y => exact ⟨y, rfl⟩
      have htsHead : ∀ e ∈ a :: s2, (entryEffTime e).isSome = true :=
        hts _ (List.mem_cons_self _ _)
      have hsortHead : (a :: s2).Pairwise (fun p q => effValD p ≤ effValD q) :=
        hsorted _ (List.mem_cons_self _ _)
      have hcur : updateCursor .null (a :: s2) = .num (effValD x) :=
        updateCursor_eq_num _ _ x hx (htsHead x (List.mem_of_getLast?_eq_some hx))
      have haux := returned_disjoint_aux rest (a :: s2) x hx hchain
        (fun t ht2 => hts t (List.mem_cons_of_mem _ ht2))
        (fun t ht2 => hsorted t (List.mem_cons_of_mem _ ht2))
      have hlist : returnedList .null ((a :: s2) :: rest)
          = (a :: s2) :: returnedList (.num (effValD x)) rest := by
        simp [returnedList, hcur, newEntries]
      rw [hlist]
      refine List.Pairwise.cons ?_ haux.2
      intro r hr e he hcontra
      have hle : effValD e ≤ effValD x := effValD_le_getLast _ hsortHead e x he hx
      have hgt : effValD x < effValD e := haux.1 r hr e hcontra
      exact absurd hle (not_le.mpr hgt)

/-- Witness for `get_transcript_no_duplicate_entries`: two append-only,
timestamped, sorted snapshots yield pairwise-disjoint new-entry lists. -/
theorem get_transcript_no_duplicate_entries_witness :
    (returnedList .null
        [[(⟨some "Dana", some [⟨"hi", some 5⟩]⟩ : TranscriptEntry)],
         [⟨some "Dana", some [⟨"hi", some 5⟩]⟩, ⟨some "Eli", some [⟨"yo", some 7⟩]⟩]]).Pairwise
      (fun r1 r2 => ∀ e ∈ r1, e ∉ r2) :=
  get_transcript_no_duplicate_entries _
    (List.Chain.cons (by decide) List.Chain.nil)
    (by decide)
    (by decide)

/-- Counterexample to claim C2 as stated: under the claim's only hypothesis (append-only
snapshots — here the same snapshot twice), an entry can be computed as "new"
and delivered in two different calls: the snapshot's last entry has no words,
so the cursor never leaves `null` and the Dana entry is returned by both
calls, also visibly in both callers' rendered messages. -/
theorem duplicate_delivery_counterexample :
    ([(⟨some "Dana", some [⟨"hi", some 5⟩]⟩ : TranscriptEntry), ⟨some "Bob", some []⟩]
        <+: [⟨some "Dana", some [⟨"hi", some 5⟩]⟩, ⟨some "Bob", some []⟩]) ∧
    returnedList .null
        [[(⟨some "Dana", some [⟨"hi", some 5⟩]⟩ : TranscriptEntry), ⟨some "Bob", some []⟩],
         [⟨some "Dana", some [⟨"hi", some 5⟩]⟩, ⟨some "Bob", some []⟩]]
      = [[⟨some "Dana", some [⟨"hi", some 5⟩]⟩, ⟨some "Bob", some []⟩],
         [⟨some "Dana", some [⟨"hi", some 5⟩]⟩, ⟨some "Bob", some []⟩]] ∧
    ¬ (returnedList .null
        [[(⟨some "Dana", some [⟨"hi", some 5⟩]⟩ : TranscriptEntry), ⟨some "Bob", some []⟩],
         [⟨some "Dana", some [⟨"hi", some 5⟩]⟩, ⟨some "Bob", some []⟩]]).Pairwise
      (fun r1 r2 => ∀ e ∈ r1, e ∉ r2) ∧
    (get_transcript [("b", ⟨"Agent", "url", .null⟩)]
        (.ok [⟨some "Dana", some [⟨"hi", some 5⟩]⟩, ⟨some "Bob", some []⟩]) "b").message
      = "Dana: hi\nBob: " ∧
    (get_transcript
        (get_transcript [("b", ⟨"Agent", "url", .null⟩)]
          (.ok [⟨some "Dana", some [⟨"hi", some 5⟩]⟩, ⟨some "Bob", some []⟩]) "b").registry
        (.ok [⟨some "Dana", some [⟨"hi", some 5⟩]⟩, ⟨some "Bob", some []⟩]) "b").message
      = "Dana: hi\nBob: " := by
  refine ⟨by decide, by decide, by decide, by decide, by decide⟩

end GroupthinkMeeting
